import Mathlib

/-!
# Verification of `scripts/3-report/gcs_reports.py`

A shallow embedding of the Google Custom Search reporting script.  The
pandas `DataFrame` is modelled as a list of column headers plus a list of
rows of cells; each report function is embedded as a pure function that
returns either a lookup error (Python `ValueError` / `KeyError` from a
missing sentinel column) or the mutated frame together with the data that
the chart rendering consumes (bar values, x-axis labels, output path,
README registration).  `main` is embedded as a function building the
ordered trace of externally visible effects, and the `__main__` handler as
a map from the escaping exception to the process exit code and log entry.
-/

namespace GcsReports

/-- A cell of the CSV record set: either a string (the `LICENSE TYPE`
column) or a numeric count.  Numeric cells are modelled as integers. -/
inductive Cell where
  | str (s : String)
  | num (n : Int)
deriving DecidableEq, Repr

/-- Numeric value of a cell; non-numeric cells contribute nothing to sums
(the record sets the script consumes hold numbers everywhere outside the
`LICENSE TYPE` column). -/
def cellNum : Cell → Int
  | Cell.num n => n
  | Cell.str _ => 0

/-- String value of a cell, as pandas renders it when the cell is used as
an index key. -/
def cellStr : Cell → String
  | Cell.str s => s
  | Cell.num n => toString n

/-- The pandas `DataFrame`: column headers plus rows of cells. -/
structure DataFrame where
  headers : List String
  rows : List (List Cell)
deriving DecidableEq, Repr

/-- `pd.DataFrame()`: the empty frame returned by `load_data` when the
input file is missing. -/
def DataFrame.emptyFrame : DataFrame := ⟨[], []⟩

/-- `DataFrame.empty` in pandas: true when any axis has length 0. -/
def DataFrame.isEmpty (df : DataFrame) : Bool :=
  df.headers.isEmpty || df.rows.isEmpty

/-- Python `str.strip()` on the character list: drop whitespace from the
front and from the back. -/
def stripChars (l : List Char) : List Char :=
  ((l.dropWhile Char.isWhitespace).reverse.dropWhile Char.isWhitespace).reverse

/-- Python `str.strip()` / pandas `.str.strip()`: remove leading and
trailing whitespace. -/
def pyStrip (s : String) : String := ⟨stripChars s.data⟩

/-- Python `list.index`: the index of the first occurrence, or `none` when
the element is absent (Python raises `ValueError`). -/
def pyIndex (l : List String) (x : String) : Option Nat :=
  if x ∈ l then some (l.indexOf x) else none

/-- Python `"pat" in s`: substring containment. -/
def strContains (s pat : String) : Bool :=
  decide (pat.data <:+: s.data)

/-- Sum of column `i` over the rows (`data[col].sum()`); positions past the
end of a row contribute nothing. -/
def colSum (rows : List (List Cell)) (i : Nat) : Int :=
  (rows.map fun r => cellNum (r.getD i (Cell.num 0))).sum

/-- `data[name].sum()`: look the column label up among the headers (first
occurrence) and sum that column. -/
def dfColSum (df : DataFrame) (name : String) : Int :=
  match pyIndex df.headers name with
  | some i => colSum df.rows i
  | none => 0

/-- `os.path.join(PATHS["data"], quarter, "3-report")`. -/
def outputDirectory (dataRoot quarter : String) : String :=
  dataRoot ++ "/" ++ quarter ++ "/3-report"

/-- `os.path.join(PATHS["data"], quarter, "1-fetch", "gcs_fetched.csv")`. -/
def gcsFetchedPath (dataRoot quarter : String) : String :=
  dataRoot ++ "/" ++ quarter ++ "/1-fetch/gcs_fetched.csv"

/-- What a report function produces when it succeeds: the frame after its
in-place header mutation, the bar chart data, the rendered x-axis tick
labels, the image path it saves to, and the README registration data. -/
structure VisReport where
  newData : DataFrame
  bars : List (String × Int)
  xlabels : List String
  imagePath : String
  chartTitle : String
  readmeTitle : String
  readmeSection : String
deriving DecidableEq, Repr

/-- `visualize_by_country`: strip a copy of the headers, locate the
`"United States"` and `"Japan"` sentinels (failing on a missing one, before
any mutation or output), take the inclusive span between them, assign the
stripped headers back onto the frame, and sum each category column. -/
def visualize_by_country (dataRoot quarter : String) (data : DataFrame) :
    Except String VisReport :=
  let columns := data.headers.map pyStrip
  match pyIndex columns "United States" with
  | none => Except.error "United States"
  | some start_index =>
    match pyIndex columns "Japan" with
    | none => Except.error "Japan"
    | some j =>
      let end_index := j + 1
      let countries := (columns.drop start_index).take (end_index - start_index)
      let data' : DataFrame := ⟨columns, data.rows⟩
      let country_data := countries.map fun c => (c, dfColSum data' c)
      Except.ok
        { newData := data'
          bars := country_data
          xlabels := country_data.map Prod.fst
          imagePath := outputDirectory dataRoot quarter ++ "/gcs_country_report.png"
          chartTitle :=
            "Number of Google Webpages Licensed by Country (" ++ quarter ++ ")"
          readmeTitle := "Number of Google Webpages Licensed by Country"
          readmeSection := "Country Report" }

/-- `visualize_by_language`: identical in shape to the country report but
spanning from `"English"` to `"Indonesian"`. -/
def visualize_by_language (dataRoot quarter : String) (data : DataFrame) :
    Except String VisReport :=
  let columns := data.headers.map pyStrip
  match pyIndex columns "English" with
  | none => Except.error "English"
  | some start_index =>
    match pyIndex columns "Indonesian" with
    | none => Except.error "Indonesian"
    | some j =>
      let end_index := j + 1
      let languages := (columns.drop start_index).take (end_index - start_index)
      let data' : DataFrame := ⟨columns, data.rows⟩
      let language_data := languages.map fun c => (c, dfColSum data' c)
      Except.ok
        { newData := data'
          bars := language_data
          xlabels := language_data.map Prod.fst
          imagePath := outputDirectory dataRoot quarter ++ "/gcs_language_report.png"
          chartTitle :=
            "Number of Google Webpages Licensed by Language (" ++ quarter ++ ")"
          readmeTitle := "Number of Google Webpages Licensed by Language"
          readmeSection := "Language Report" }

/-- `visualize_by_license_type`: strip the headers in place, set the
`LICENSE TYPE` column as the index (failing when it is absent), and sum the
remaining cells of each row; the x-axis labels rewrite any key containing
`by/2.5` to the literal `"CC BY 2.5"`. -/
def visualize_by_license_type (dataRoot quarter : String) (data : DataFrame) :
    Except String VisReport :=
  let data' : DataFrame := ⟨data.headers.map pyStrip, data.rows⟩
  match pyIndex data'.headers "LICENSE TYPE" with
  | none => Except.error "LICENSE TYPE"
  | some li =>
    let license_data := data'.rows.map fun r =>
      (cellStr (r.getD li (Cell.str "")), ((r.eraseIdx li).map cellNum).sum)
    Except.ok
      { newData := data'
        bars := license_data
        xlabels := license_data.map fun kv =>
          if strContains kv.1 "by/2.5" then "CC BY 2.5" else kv.1
        imagePath := outputDirectory dataRoot quarter ++ "/gcs_licensetype_report.png"
        chartTitle :=
          "Number of Webpages Licensed by License Type (" ++ quarter ++ ")"
        readmeTitle := "Number of Webpages Licensed by License Type"
        readmeSection := "License Type Report" }

/-- Command-line options after `argparse` parsing, before the
`skip_commit ⇒ skip_push` fix-up. -/
structure Args where
  quarter : String
  skip_commit : Bool
  skip_push : Bool
  show_plots : Bool
deriving DecidableEq, Repr

/-- The tail of `parse_arguments`: `if args.skip_commit: args.skip_push =
True`. -/
def parse_arguments (raw : Args) : Args :=
  if raw.skip_commit then { raw with skip_push := true } else raw

/-- Log severity levels used by the script. -/
inductive LogLevel where
  | info
  | error
deriving DecidableEq, Repr

/-- `load_data`: the filesystem is a map from path to the frame parsed from
the CSV stored there (`none` when the file does not exist).  On a missing
file the loader logs an error and returns the empty frame; otherwise it
logs at info and returns the parsed frame. -/
def load_data (fs : String → Option DataFrame) (dataRoot quarter : String) :
    DataFrame × LogLevel :=
  match fs (gcsFetchedPath dataRoot quarter) with
  | none => (DataFrame.emptyFrame, LogLevel.error)
  | some data => (data, LogLevel.info)

/-- Externally visible effects of a run, in order. -/
inductive Effect where
  | fetchAndMerge
  | parseArgs
  | loadData (quarter : String)
  | savefig (path : String)
  | updateReadme (path title sect : String)
  | addAndCommit
  | pushChanges
deriving DecidableEq, Repr

/-- The effects a successful report function performs, in order:
`plt.savefig` then `shared.update_readme`. -/
def visEffects (r : VisReport) : List Effect :=
  [Effect.savefig r.imagePath,
   Effect.updateReadme r.imagePath r.readmeTitle r.readmeSection]

/-- The outcome of `main`: the effect trace, and the sentinel name whose
lookup error escaped (if any). -/
structure MainResult where
  trace : List Effect
  uncaught : Option String
deriving Repr

/-- `main`: fetch-and-merge, parse arguments, load data (returning early on
an empty frame), run the three reports in fixed order threading the mutated
frame through, then conditionally commit and push. -/
def main (fs : String → Option DataFrame) (dataRoot : String) (rawArgs : Args) :
    MainResult :=
  let args := parse_arguments rawArgs
  let pre := [Effect.fetchAndMerge, Effect.parseArgs, Effect.loadData args.quarter]
  let data := (load_data fs dataRoot args.quarter).1
  if data.isEmpty then ⟨pre, none⟩
  else
    match visualize_by_country dataRoot args.quarter data with
    | Except.error m => ⟨pre, some m⟩
    | Except.ok r1 =>
      match visualize_by_license_type dataRoot args.quarter r1.newData with
      | Except.error m => ⟨pre ++ visEffects r1, some m⟩
      | Except.ok r2 =>
        match visualize_by_language dataRoot args.quarter r2.newData with
        | Except.error m => ⟨pre ++ visEffects r1 ++ visEffects r2, some m⟩
        | Except.ok r3 =>
          ⟨pre ++ visEffects r1 ++ visEffects r2 ++ visEffects r3
              ++ (if args.skip_commit then [] else [Effect.addAndCommit])
              ++ (if args.skip_push then [] else [Effect.pushChanges]),
            none⟩

/-- The chart files a trace writes (`plt.savefig` calls), in order. -/
def savefigPaths (tr : List Effect) : List String :=
  tr.filterMap fun e =>
    match e with
    | Effect.savefig p => some p
    | _ => none

/-- The chart files a report outcome writes: exactly its image on success,
nothing on a lookup error (in the source the index lookups precede
`plt.savefig`). -/
def visWrites (r : Except String VisReport) : List String :=
  match r with
  | Except.ok rep => [rep.imagePath]
  | Except.error _ => []

/-- The exception escaping `main`, as seen by the `__main__` handler. -/
inductive PyException where
  | quantifying (message : String) (exit_code : Int)
  | systemExit (code : Int)
  | keyboardInterrupt
  | other (message : String)
deriving DecidableEq, Repr

/-- The `__main__` boundary: from the escaping exception (or `none` for a
normal return) to the process exit code and the log entry written, the
Boolean recording whether a full traceback is logged. -/
def handleTopLevel : Option PyException → Int × Option (LogLevel × Bool)
  | none => (0, none)
  | some (PyException.quantifying _ c) =>
      (c, some (if c = 0 then LogLevel.info else LogLevel.error, false))
  | some (PyException.systemExit c) => (c, some (LogLevel.error, false))
  | some PyException.keyboardInterrupt => (130, some (LogLevel.info, false))
  | some (PyException.other _) => (1, some (LogLevel.error, true))

/-- Modelled from the spec: the aggregate the testable property describes —
for a span `[start, stop)` of raw column positions, the list pairing each
category (the stripped header) with the column-wise sum over all rows of
that category's raw column, in original left-to-right order. -/
def rawSpanSums (df : DataFrame) (start stop : Nat) : List (String × Int) :=
  (List.range' start (stop - start)).map fun i =>
    ((df.headers.map pyStrip).getD i "", colSum df.rows i)

/-- Modelled from the spec: the sum of all numeric cells of the record set
lying outside column `li`. -/
def sumNumericOutside (rows : List (List Cell)) (li : Nat) : Int :=
  (rows.map fun r =>
    (((List.range r.length).filter fun i => i ≠ li).map fun i =>
        cellNum (r.getD i (Cell.num 0))).sum).sum


/-! ## Concrete record sets used as witnesses -/

/-- A two-row fixture record set holding all four sentinel columns (with
incidental header whitespace) and a `LICENSE TYPE` column; the country
values are the spec's end-to-end fixture (`United States` 10 and 30,
`Japan` 20 and 5). -/
def fixture : DataFrame :=
  ⟨["LICENSE TYPE", " United States", "Japan ", "English", " Indonesian"],
   [[Cell.str "licenses/by-sa/2.0", Cell.num 10, Cell.num 20, Cell.num 1,
      Cell.num 2],
    [Cell.str "licenses/by/2.5/tw", Cell.num 30, Cell.num 5, Cell.num 3,
      Cell.num 4]]⟩

/-- `fixture` after in-place header stripping. -/
def fixtureStripped : DataFrame :=
  ⟨["LICENSE TYPE", "United States", "Japan", "English", "Indonesian"],
   fixture.rows⟩

/-- A fixture record set lacking the `Japan` and `Indonesian` sentinel
columns. -/
def fixtureNoSentinel : DataFrame :=
  ⟨["LICENSE TYPE", "United States", "English"],
   [[Cell.str "licenses/by/3.0", Cell.num 7, Cell.num 8]]⟩

/-- The country report the script produces on `fixture`. -/
def fixtureCountryReport : VisReport :=
  { newData := fixtureStripped
    bars := [("United States", 40), ("Japan", 25)]
    xlabels := ["United States", "Japan"]
    imagePath := "data/2024Q2/3-report/gcs_country_report.png"
    chartTitle := "Number of Google Webpages Licensed by Country (2024Q2)"
    readmeTitle := "Number of Google Webpages Licensed by Country"
    readmeSection := "Country Report" }

/-- The license-type report the script produces on `fixture`. -/
def fixtureLicenseReport : VisReport :=
  { newData := fixtureStripped
    bars := [("licenses/by-sa/2.0", 33), ("licenses/by/2.5/tw", 42)]
    xlabels := ["licenses/by-sa/2.0", "CC BY 2.5"]
    imagePath := "data/2024Q2/3-report/gcs_licensetype_report.png"
    chartTitle := "Number of Webpages Licensed by License Type (2024Q2)"
    readmeTitle := "Number of Webpages Licensed by License Type"
    readmeSection := "License Type Report" }

/-- The language report the script produces on `fixture`. -/
def fixtureLanguageReport : VisReport :=
  { newData := fixtureStripped
    bars := [("English", 4), ("Indonesian", 6)]
    xlabels := ["English", "Indonesian"]
    imagePath := "data/2024Q2/3-report/gcs_language_report.png"
    chartTitle := "Number of Google Webpages Licensed by Language (2024Q2)"
    readmeTitle := "Number of Google Webpages Licensed by Language"
    readmeSection := "Language Report" }

/-! ## Supporting lemmas -/

theorem stripChars_eq_rdropWhile (l : List Char) :
    stripChars l =
      List.rdropWhile Char.isWhitespace (l.dropWhile Char.isWhitespace) := rfl

theorem dropWhile_eq_self_of_prefix {p : Char → Bool} {k m : List Char}
    (hm : m.dropWhile p = m) (hpre : k <+: m) : k.dropWhile p = k := by
  cases k with
  | nil => rfl
  | cons a t =>
    obtain ⟨rest, hrest⟩ := hpre
    have hpa : p a = false := by
      by_contra hc
      have hpa' : p a = true := by simpa using hc
      rw [← hrest] at hm
      rw [List.cons_append, List.dropWhile_cons_of_pos hpa'] at hm
      have hle := (List.dropWhile_sublist (l := t ++ rest) p).length_le
      rw [hm] at hle
      simp at hle
    simp [List.dropWhile_cons, hpa]

theorem dropWhile_stripChars (l : List Char) :
    (stripChars l).dropWhile Char.isWhitespace = stripChars l := by
  rw [stripChars_eq_rdropWhile]
  exact dropWhile_eq_self_of_prefix (List.dropWhile_idempotent _ _)
    (List.rdropWhile_prefix _ _)

theorem stripChars_idem (l : List Char) :
    stripChars (stripChars l) = stripChars l := by
  rw [stripChars_eq_rdropWhile (stripChars l), dropWhile_stripChars,
    stripChars_eq_rdropWhile l, List.rdropWhile_idempotent]

theorem pyStrip_idem (s : String) : pyStrip (pyStrip s) = pyStrip s :=
  congrArg String.mk (stripChars_idem s.data)

theorem pyIndex_eq_some {l : List String} {x : String} (h : x ∈ l) :
    pyIndex l x = some (l.indexOf x) := by
  simp [pyIndex, h]

theorem pyIndex_eq_none {l : List String} {x : String} (h : x ∉ l) :
    pyIndex l x = none := by
  simp [pyIndex, h]

/-! ## Claim theorems -/

/-- C6: at the `__main__` boundary, a `QuantifyingException` exits with its
carried exit code, logged at info severity when the code is zero and error
severity otherwise; a nested `SystemExit` propagates its code; a
`KeyboardInterrupt` exits with code 130; any other unhandled exception is
logged with a full traceback and exits with code 1; a normal return exits
with code 0. -/
theorem C6_top_level_exit_codes :
    (∀ (m : String) (c : Int),
        handleTopLevel (some (PyException.quantifying m c)) =
          (c, some (if c = 0 then LogLevel.info else LogLevel.error, false)))
    ∧ (∀ c : Int,
        handleTopLevel (some (PyException.systemExit c)) =
          (c, some (LogLevel.error, false)))
    ∧ handleTopLevel (some PyException.keyboardInterrupt) =
        (130, some (LogLevel.info, false))
    ∧ (∀ m : String,
        handleTopLevel (some (PyException.other m)) =
          (1, some (LogLevel.error, true)))
    ∧ handleTopLevel none = (0, none) :=
  ⟨fun _ _ => rfl, fun _ => rfl, rfl, fun _ => rfl, rfl⟩

/-- C8: each report saves its image to a fixed path determined only by the
quarter (and the fixed data root), independent of the record set, so a
re-run for the same quarter writes the same three files. -/
theorem C8_fixed_output_paths (dataRoot quarter : String) (df : DataFrame)
    (r : VisReport) :
    (visualize_by_country dataRoot quarter df = Except.ok r →
        r.imagePath =
          dataRoot ++ "/" ++ quarter ++ "/3-report/gcs_country_report.png")
    ∧ (visualize_by_license_type dataRoot quarter df = Except.ok r →
        r.imagePath =
          dataRoot ++ "/" ++ quarter ++ "/3-report/gcs_licensetype_report.png")
    ∧ (visualize_by_language dataRoot quarter df = Except.ok r →
        r.imagePath =
          dataRoot ++ "/" ++ quarter ++ "/3-report/gcs_language_report.png") := by
  refine ⟨?_, ?_, ?_⟩ <;> intro h
  · simp only [visualize_by_country] at h
    split at h
    · cases h
    · split at h
      · cases h
      · injection h with h
        subst h
        rw [outputDirectory, String.append_assoc]
        rfl
  · simp only [visualize_by_license_type] at h
    split at h
    · cases h
    · injection h with h
      subst h
      rw [outputDirectory, String.append_assoc]
      rfl
  · simp only [visualize_by_language] at h
    split at h
    · cases h
    · split at h
      · cases h
      · injection h with h
        subst h
        rw [outputDirectory, String.append_assoc]
        rfl

/-- C8 witness: on the concrete fixture all three reports write the fixed
quarter-determined paths. -/
theorem C8_fixed_output_paths_witness :
    fixtureCountryReport.imagePath =
        "data" ++ "/" ++ "2024Q2" ++ "/3-report/gcs_country_report.png"
    ∧ fixtureLicenseReport.imagePath =
        "data" ++ "/" ++ "2024Q2" ++ "/3-report/gcs_licensetype_report.png"
    ∧ fixtureLanguageReport.imagePath =
        "data" ++ "/" ++ "2024Q2" ++ "/3-report/gcs_language_report.png" :=
  ⟨(C8_fixed_output_paths "data" "2024Q2" fixture fixtureCountryReport).1 rfl,
   (C8_fixed_output_paths "data" "2024Q2" fixture fixtureLicenseReport).2.1 rfl,
   (C8_fixed_output_paths "data" "2024Q2" fixture fixtureLanguageReport).2.2
      rfl⟩

/-- C5: in the license-type report, the rendered x-axis label for a bar is
exactly `"CC BY 2.5"` when the bar's license-type key contains the
substring `by/2.5`, and is the key unchanged otherwise. -/
theorem C5_label_rewrite (dataRoot quarter : String) (df : DataFrame)
    (r : VisReport)
    (h : visualize_by_license_type dataRoot quarter df = Except.ok r) :
    r.xlabels = r.bars.map fun kv =>
      if strContains kv.1 "by/2.5" then "CC BY 2.5" else kv.1 := by
  simp only [visualize_by_license_type] at h
  split at h
  · cases h
  · injection h with h
    subst h
    rfl

/-- C5 witness: on the concrete fixture, the `by/2.5` key renders as
`CC BY 2.5` and the other key renders unchanged. -/
theorem C5_label_rewrite_witness :
    fixtureLicenseReport.xlabels = fixtureLicenseReport.bars.map fun kv =>
      if strContains kv.1 "by/2.5" then "CC BY 2.5" else kv.1 :=
  C5_label_rewrite "data" "2024Q2" fixture fixtureLicenseReport rfl

/-- C4: when a sentinel column is missing from the stripped headers, the
report fails with a lookup error and writes no chart file. -/
theorem C4_missing_sentinel (dataRoot quarter : String) (df : DataFrame) :
    (("United States" ∉ df.headers.map pyStrip
        ∨ "Japan" ∉ df.headers.map pyStrip) →
      (visualize_by_country dataRoot quarter df).isOk = false
      ∧ visWrites (visualize_by_country dataRoot quarter df) = [])
    ∧ (("English" ∉ df.headers.map pyStrip
        ∨ "Indonesian" ∉ df.headers.map pyStrip) →
      (visualize_by_language dataRoot quarter df).isOk = false
      ∧ visWrites (visualize_by_language dataRoot quarter df) = []) := by
  constructor
  · rintro (hUS | hJP)
    · simp [visualize_by_country, pyIndex_eq_none hUS, Except.isOk, Except.toBool, visWrites]
    · by_cases hUS : "United States" ∈ df.headers.map pyStrip
      · simp [visualize_by_country, pyIndex_eq_some hUS, pyIndex_eq_none hJP,
          Except.isOk, Except.toBool, visWrites]
      · simp [visualize_by_country, pyIndex_eq_none hUS, Except.isOk, Except.toBool, visWrites]
  · rintro (hEN | hID)
    · simp [visualize_by_language, pyIndex_eq_none hEN, Except.isOk, Except.toBool, visWrites]
    · by_cases hEN : "English" ∈ df.headers.map pyStrip
      · simp [visualize_by_language, pyIndex_eq_some hEN, pyIndex_eq_none hID,
          Except.isOk, Except.toBool, visWrites]
      · simp [visualize_by_language, pyIndex_eq_none hEN, Except.isOk, Except.toBool, visWrites]

/-- C4 witness: on a record set lacking `Japan` and `Indonesian`, both span
reports fail and write nothing. -/
theorem C4_missing_sentinel_witness :
    ((visualize_by_country "data" "2024Q3" fixtureNoSentinel).isOk = false
      ∧ visWrites (visualize_by_country "data" "2024Q3" fixtureNoSentinel) = [])
    ∧ ((visualize_by_language "data" "2024Q3" fixtureNoSentinel).isOk = false
      ∧ visWrites (visualize_by_language "data" "2024Q3" fixtureNoSentinel)
          = []) :=
  ⟨(C4_missing_sentinel "data" "2024Q3" fixtureNoSentinel).1 (Or.inr (by decide)),
   (C4_missing_sentinel "data" "2024Q3" fixtureNoSentinel).2 (Or.inr (by decide))⟩

/-- C3: when the quarter's input CSV is absent, the loader logs an error
and returns the empty record set, and the run ends early: `main` completes
without an escaping error and writes no chart file. -/
theorem C3_missing_input_file (fs : String → Option DataFrame)
    (dataRoot : String) (rawArgs : Args)
    (h : fs (gcsFetchedPath dataRoot (parse_arguments rawArgs).quarter)
          = none) :
    load_data fs dataRoot (parse_arguments rawArgs).quarter =
        (DataFrame.emptyFrame, LogLevel.error)
    ∧ (main fs dataRoot rawArgs).uncaught = none
    ∧ savefigPaths (main fs dataRoot rawArgs).trace = [] := by
  have hload : load_data fs dataRoot (parse_arguments rawArgs).quarter =
      (DataFrame.emptyFrame, LogLevel.error) := by
    rw [load_data, h]
  refine ⟨hload, ?_, ?_⟩ <;>
    simp [main, hload, DataFrame.emptyFrame, DataFrame.isEmpty, savefigPaths]

/-- C3 witness: a filesystem with no files at all makes the loader return
the empty frame with an error log, and the run writes no chart. -/
theorem C3_missing_input_file_witness :
    load_data (fun _ => none) "data" (parse_arguments
        ⟨"2024Q2", false, false, false⟩).quarter =
      (DataFrame.emptyFrame, LogLevel.error)
    ∧ (main (fun _ => none) "data" ⟨"2024Q2", false, false, false⟩).uncaught
        = none
    ∧ savefigPaths
        (main (fun _ => none) "data" ⟨"2024Q2", false, false, false⟩).trace
        = [] :=
  C3_missing_input_file (fun _ => none) "data" ⟨"2024Q2", false, false, false⟩
    rfl

/-- C10: an input CSV that exists but has no data rows loads as an empty
record set — logged at info, not error, by the loader — and the run ends
early writing no chart file, just as for a missing file. -/
theorem C10_headers_only_input (fs : String → Option DataFrame)
    (dataRoot : String) (rawArgs : Args) (df : DataFrame)
    (h : fs (gcsFetchedPath dataRoot (parse_arguments rawArgs).quarter)
          = some df)
    (hrows : df.rows = []) :
    load_data fs dataRoot (parse_arguments rawArgs).quarter =
        (df, LogLevel.info)
    ∧ df.isEmpty = true
    ∧ (main fs dataRoot rawArgs).uncaught = none
    ∧ savefigPaths (main fs dataRoot rawArgs).trace = [] := by
  have hload : load_data fs dataRoot (parse_arguments rawArgs).quarter =
      (df, LogLevel.info) := by
    rw [load_data, h]
  have hempty : df.isEmpty = true := by
    simp [DataFrame.isEmpty, hrows]
  refine ⟨hload, hempty, ?_, ?_⟩ <;>
    simp [main, hload, hempty, savefigPaths]

/-- C10 witness: a headers-only record set at the conventional path loads
as empty with an info log, and the run writes no chart. -/
theorem C10_headers_only_input_witness :
    load_data (fun _ => some ⟨["LICENSE TYPE", "United States"], []⟩) "data"
        (parse_arguments ⟨"2024Q2", false, false, false⟩).quarter =
      (⟨["LICENSE TYPE", "United States"], []⟩, LogLevel.info)
    ∧ (DataFrame.mk ["LICENSE TYPE", "United States"] []).isEmpty = true
    ∧ (main (fun _ => some ⟨["LICENSE TYPE", "United States"], []⟩) "data"
        ⟨"2024Q2", false, false, false⟩).uncaught = none
    ∧ savefigPaths
        (main (fun _ => some ⟨["LICENSE TYPE", "United States"], []⟩) "data"
          ⟨"2024Q2", false, false, false⟩).trace = [] :=
  C10_headers_only_input (fun _ => some ⟨["LICENSE TYPE", "United States"], []⟩)
    "data" ⟨"2024Q2", false, false, false⟩
    ⟨["LICENSE TYPE", "United States"], []⟩ rfl rfl

/-- C9: header whitespace stripping is a persistent mutation of the shared
record set: the country report hands on a frame whose headers are the
stripped originals (rows untouched), those headers are a fixed point of
stripping, and the next report's own strip leaves the frame unchanged. -/
theorem C9_header_mutation_persists (dataRoot quarter : String)
    (df : DataFrame) (r1 : VisReport)
    (h1 : visualize_by_country dataRoot quarter df = Except.ok r1) :
    r1.newData.headers = df.headers.map pyStrip
    ∧ r1.newData.rows = df.rows
    ∧ r1.newData.headers.map pyStrip = r1.newData.headers
    ∧ (∀ r2 : VisReport,
        visualize_by_license_type dataRoot quarter r1.newData = Except.ok r2 →
          r2.newData = r1.newData) := by
  simp only [visualize_by_country] at h1
  split at h1
  · cases h1
  · split at h1
    · cases h1
    · injection h1 with h1
      subst h1
      have hidem : (df.headers.map pyStrip).map pyStrip
          = df.headers.map pyStrip := by
        rw [List.map_map]
        exact List.map_congr_left fun a _ => pyStrip_idem a
      refine ⟨rfl, rfl, hidem, ?_⟩
      intro r2 h2
      simp only [visualize_by_license_type] at h2
      split at h2
      · cases h2
      · injection h2 with h2
        subst h2
        simp [hidem]

/-- C9 witness: on the concrete fixture, the frame handed on by the
country report has stripped headers, stripping is idempotent on them, and
the license-type report leaves the frame unchanged. -/
theorem C9_header_mutation_persists_witness :
    fixtureCountryReport.newData.headers = fixture.headers.map pyStrip
    ∧ fixtureCountryReport.newData.rows = fixture.rows
    ∧ fixtureCountryReport.newData.headers.map pyStrip
        = fixtureCountryReport.newData.headers
    ∧ fixtureLicenseReport.newData = fixtureCountryReport.newData := by
  have h := C9_header_mutation_persists "data" "2024Q2" fixture
    fixtureCountryReport rfl
  exact ⟨h.1, h.2.1, h.2.2.1, h.2.2.2 fixtureLicenseReport rfl⟩

/-- C7: `main` performs its steps in fixed order — fetch-and-merge, parse
arguments, load data, the country report, the license-type report, the
language report (each saving then registering its chart), then commit
unless `--skip-commit` and push unless `--skip-push` — and `--skip-commit`
forces `--skip-push`. -/
theorem C7_orchestration_order (fs : String → Option DataFrame)
    (dataRoot : String) (rawArgs : Args) (r1 r2 r3 : VisReport)
    (hne : ((load_data fs dataRoot
        (parse_arguments rawArgs).quarter).1).isEmpty = false)
    (h1 : visualize_by_country dataRoot (parse_arguments rawArgs).quarter
        (load_data fs dataRoot (parse_arguments rawArgs).quarter).1
        = Except.ok r1)
    (h2 : visualize_by_license_type dataRoot (parse_arguments rawArgs).quarter
        r1.newData = Except.ok r2)
    (h3 : visualize_by_language dataRoot (parse_arguments rawArgs).quarter
        r2.newData = Except.ok r3) :
    main fs dataRoot rawArgs =
      ⟨[Effect.fetchAndMerge, Effect.parseArgs,
          Effect.loadData (parse_arguments rawArgs).quarter]
        ++ visEffects r1 ++ visEffects r2 ++ visEffects r3
        ++ (if rawArgs.skip_commit then [] else [Effect.addAndCommit])
        ++ (if rawArgs.skip_commit || rawArgs.skip_push then []
            else [Effect.pushChanges]), none⟩
    ∧ (parse_arguments rawArgs).skip_commit = rawArgs.skip_commit
    ∧ (parse_arguments rawArgs).skip_push
        = (rawArgs.skip_commit || rawArgs.skip_push) := by
  have hargsc : (parse_arguments rawArgs).skip_commit
      = rawArgs.skip_commit := by
    rw [parse_arguments]
    split <;> rfl
  have hargsp : (parse_arguments rawArgs).skip_push
      = (rawArgs.skip_commit || rawArgs.skip_push) := by
    rw [parse_arguments]
    rcases hc : rawArgs.skip_commit <;> simp [hc]
  refine ⟨?_, hargsc, hargsp⟩
  simp only [main, hne, Bool.false_eq_true, if_false, h1, h2, h3,
    hargsc, hargsp]

/-- C7 witness: on the concrete fixture with both skip flags off, `main`
performs exactly the fetch, parse, load, the three report effect pairs,
the commit and the push, in order. -/
theorem C7_orchestration_order_witness :
    main (fun _ => some fixture) "data" ⟨"2024Q2", false, false, false⟩ =
      ⟨[Effect.fetchAndMerge, Effect.parseArgs, Effect.loadData "2024Q2"]
        ++ visEffects fixtureCountryReport ++ visEffects fixtureLicenseReport
        ++ visEffects fixtureLanguageReport
        ++ [Effect.addAndCommit] ++ [Effect.pushChanges], none⟩
    ∧ (parse_arguments ⟨"2024Q2", false, false, false⟩).skip_commit = false
    ∧ (parse_arguments ⟨"2024Q2", false, false, false⟩).skip_push = false :=
  C7_orchestration_order (fun _ => some fixture) "data"
    ⟨"2024Q2", false, false, false⟩
    fixtureCountryReport fixtureLicenseReport fixtureLanguageReport
    rfl rfl rfl rfl

theorem sum_map_eq_sum_range (f : Cell → Int) (d : Cell) (t : List Cell) :
    (t.map f).sum
      = ((List.range t.length).map fun i => f (t.getD i d)).sum := by
  induction t with
  | nil => simp
  | cons a t ih =>
    simp only [List.map_cons, List.sum_cons, List.length_cons,
      List.range_succ_eq_map, List.getD_cons_zero, List.map_map,
      Function.comp_def, List.getD_cons_succ]
    rw [ih]

theorem sum_map_eraseIdx_eq (f : Cell → Int) (d : Cell) :
    ∀ (r : List Cell) (li : ℕ),
      ((r.eraseIdx li).map f).sum =
        (((List.range r.length).filter fun i => i ≠ li).map fun i =>
            f (r.getD i d)).sum := by
  intro r
  induction r with
  | nil => intro li; simp
  | cons a t ih =>
    intro li
    cases li with
    | zero =>
      rw [List.eraseIdx_cons_zero, List.length_cons, List.range_succ_eq_map]
      rw [List.filter_cons_of_neg (by simp)]
      rw [List.filter_map]
      have hall : (List.range t.length).filter
          ((fun i => decide (i ≠ 0)) ∘ Nat.succ) = List.range t.length := by
        rw [List.filter_eq_self]
        intro x _
        simp
      rw [hall, List.map_map]
      simp only [Function.comp_def, List.getD_cons_succ]
      rw [sum_map_eq_sum_range f d t]
    | succ k =>
      rw [List.eraseIdx_cons_succ, List.map_cons, List.sum_cons]
      rw [List.length_cons, List.range_succ_eq_map]
      rw [List.filter_cons_of_pos (by simp)]
      rw [List.map_cons, List.sum_cons, List.getD_cons_zero]
      rw [List.filter_map]
      have hshift : (List.range t.length).filter
          ((fun i => decide (i ≠ k + 1)) ∘ Nat.succ)
          = (List.range t.length).filter fun i => i ≠ k := by
        apply List.filter_congr
        intro x _
        simp
      rw [hshift, List.map_map]
      simp only [Function.comp_def, List.getD_cons_succ]
      rw [ih k]

/-- C2: the license-type report produces one total per row, keyed by the
row's `LICENSE TYPE` value in the data's existing row order, and the
per-license-type totals sum to the sum of all numeric cells of the record
set outside the `LICENSE TYPE` column. -/
theorem C2_license_type_totals (dataRoot quarter : String) (df : DataFrame)
    (r : VisReport)
    (h : visualize_by_license_type dataRoot quarter df = Except.ok r) :
    r.bars.length = df.rows.length
    ∧ r.bars.map Prod.fst = (df.rows.map fun row =>
        cellStr (row.getD ((df.headers.map pyStrip).indexOf "LICENSE TYPE")
          (Cell.str "")))
    ∧ (r.bars.map Prod.snd).sum =
        sumNumericOutside df.rows
          ((df.headers.map pyStrip).indexOf "LICENSE TYPE") := by
  simp only [visualize_by_license_type] at h
  split at h
  · cases h
  · rename_i li hli
    injection h with h
    subst h
    have hli' : li = (df.headers.map pyStrip).indexOf "LICENSE TYPE" := by
      by_cases hmem : "LICENSE TYPE" ∈ df.headers.map pyStrip
      · rw [pyIndex_eq_some hmem] at hli
        injection hli with h'
        exact h'.symm
      · rw [pyIndex_eq_none hmem] at hli
        cases hli
    subst hli'
    refine ⟨by simp, by simp [List.map_map], ?_⟩
    simp only [List.map_map]
    rw [sumNumericOutside]
    congr 1
    apply List.map_congr_left
    intro row _
    exact sum_map_eraseIdx_eq cellNum (Cell.num 0) row _

/-- C2 witness: on the concrete fixture. -/
theorem C2_license_type_totals_witness :
    fixtureLicenseReport.bars.length = fixture.rows.length
    ∧ fixtureLicenseReport.bars.map Prod.fst = (fixture.rows.map fun row =>
        cellStr (row.getD
          ((fixture.headers.map pyStrip).indexOf "LICENSE TYPE")
          (Cell.str "")))
    ∧ (fixtureLicenseReport.bars.map Prod.snd).sum =
        sumNumericOutside fixture.rows
          ((fixture.headers.map pyStrip).indexOf "LICENSE TYPE") :=
  C2_license_type_totals "data" "2024Q2" fixture fixtureLicenseReport rfl

theorem span_bars_eq (cols : List String) (rows : List (List Cell))
    (hnd : cols.Nodup) (start stop : ℕ) (hstop : stop ≤ cols.length) :
    (((cols.drop start).take (stop - start)).map
        fun c => (c, dfColSum ⟨cols, rows⟩ c))
      = (List.range' start (stop - start)).map
          fun i => (cols.getD i "", colSum rows i) := by
  apply List.ext_getElem
  · simp only [List.length_map, List.length_take, List.length_drop,
      List.length_range']
    omega
  · intro n h1 h2
    have hlen : n < stop - start := by
      simpa using h2
    have hbound : start + n < cols.length := by omega
    simp only [List.getElem_map, List.getElem_take, List.getElem_drop,
      List.getElem_range', Nat.one_mul]
    have hmem : cols[start + n] ∈ cols := List.getElem_mem hbound
    have hidx : List.indexOf cols[start + n] cols = start + n :=
      List.indexOf_getElem hnd (start + n) hbound
    rw [List.getD_eq_getElem cols "" hbound]
    simp only [Prod.mk.injEq]
    exact ⟨trivial, by simp [dfColSum, pyIndex_eq_some hmem, hidx]⟩

/-- C1: for every record set whose stripped headers hold the sentinel
columns without duplication, each span report succeeds and its aggregate
for each category in the inclusive sentinel-to-sentinel span equals the
column-wise sum over all rows of that category's raw column, in the
original left-to-right column order, whatever incidental whitespace the
original headers carry. -/
theorem C1_span_aggregation (dataRoot quarter : String) (df : DataFrame)
    (hnd : (df.headers.map pyStrip).Nodup) :
    ("United States" ∈ df.headers.map pyStrip →
      "Japan" ∈ df.headers.map pyStrip →
      (visualize_by_country dataRoot quarter df).map VisReport.bars =
        Except.ok (rawSpanSums df
          ((df.headers.map pyStrip).indexOf "United States")
          ((df.headers.map pyStrip).indexOf "Japan" + 1)))
    ∧ ("English" ∈ df.headers.map pyStrip →
      "Indonesian" ∈ df.headers.map pyStrip →
      (visualize_by_language dataRoot quarter df).map VisReport.bars =
        Except.ok (rawSpanSums df
          ((df.headers.map pyStrip).indexOf "English")
          ((df.headers.map pyStrip).indexOf "Indonesian" + 1))) := by
  constructor
  · intro hUS hJP
    have hstop : (df.headers.map pyStrip).indexOf "Japan" + 1
        ≤ (df.headers.map pyStrip).length :=
      List.indexOf_lt_length.mpr hJP
    simp only [visualize_by_country, pyIndex_eq_some hUS,
      pyIndex_eq_some hJP, Except.map, rawSpanSums]
    exact congrArg Except.ok
      (span_bars_eq (df.headers.map pyStrip) df.rows hnd _ _ hstop)
  · intro hEN hID
    have hstop : (df.headers.map pyStrip).indexOf "Indonesian" + 1
        ≤ (df.headers.map pyStrip).length :=
      List.indexOf_lt_length.mpr hID
    simp only [visualize_by_language, pyIndex_eq_some hEN,
      pyIndex_eq_some hID, Except.map, rawSpanSums]
    exact congrArg Except.ok
      (span_bars_eq (df.headers.map pyStrip) df.rows hnd _ _ hstop)

/-- C1 witness: on the spec's two-row fixture (with incidental header
whitespace), the country span runs from `United States` to `Japan` and
aggregates to 40 and 25, and the language span aggregates to 4 and 6. -/
theorem C1_span_aggregation_witness :
    (fixture.headers.map pyStrip).Nodup
    ∧ (visualize_by_country "data" "2024Q2" fixture).map VisReport.bars =
        Except.ok (rawSpanSums fixture 1 3)
    ∧ (visualize_by_language "data" "2024Q2" fixture).map VisReport.bars =
        Except.ok (rawSpanSums fixture 3 5)
    ∧ rawSpanSums fixture 1 3 = [("United States", 40), ("Japan", 25)]
    ∧ rawSpanSums fixture 3 5 = [("English", 4), ("Indonesian", 6)] :=
  ⟨by decide,
   (C1_span_aggregation "data" "2024Q2" fixture (by decide)).1
      (by decide) (by decide),
   (C1_span_aggregation "data" "2024Q2" fixture (by decide)).2
      (by decide) (by decide),
   by decide, by decide⟩

end GcsReports
